import Mathlib

/-!
# NewsPay server — shallow embedding and verification

This file embeds the request-handling core of the NewsPay server
(`server/main.py`): the browser/bot classifier, the entitlement store, the
`GET /` access decision, the payment-request endpoint, the success-redirect
confirmation, the webhook confirmation, and the durable-store loader.

Python dictionaries keyed by token become association lists; `Optional[str]`
becomes `Option String`; Python truthiness of an optional string ("" and
`None` are falsy) is made explicit; external collaborators (Stripe, the
clock, `uuid.uuid4()` randomness) enter as parameters.  Each handler takes
the store and returns the response paired with the resulting store.
-/

namespace NewsPay

/-- Python truthiness of an `Optional[str]`: `None` and `""` are falsy. -/
def optTruthy : Option String → Bool
  | none => false
  | some s => s != ""

/-- `needle` is a leading run of `hay` (character lists). -/
def listStartsWith : List Char → List Char → Bool
  | [], _ => true
  | _ :: _, [] => false
  | a :: as, b :: bs => a == b && listStartsWith as bs

/-- Contiguous-substring test on character lists, Python's `needle in hay`. -/
def listContainsSub (needle : List Char) : List Char → Bool
  | [] => needle.isEmpty
  | b :: bs => listStartsWith needle (b :: bs) || listContainsSub needle bs

/-- Python's `needle in hay` on strings. -/
def strContainsSub (hay needle : String) : Bool :=
  listContainsSub needle.data hay.data

/-- Python's `str.lower()` on one character, restricted to ASCII (the
allow-list tokens are ASCII, so the match below only depends on this range). -/
def charLower (c : Char) : Char :=
  if 65 ≤ c.toNat ∧ c.toNat ≤ 90 then Char.ofNat (c.toNat + 32) else c

/-- Python's `str.lower()`. -/
def pyLower (s : String) : String :=
  String.mk (s.data.map charLower)

/-- Python's `str.strip()`: drop leading and trailing whitespace. -/
def pyStrip (s : String) : String :=
  String.mk (((s.data.dropWhile Char.isWhitespace).reverse.dropWhile Char.isWhitespace).reverse)

/-- The fixed browser allow-list from `is_browser` (server/main.py:113). -/
def common_browsers : List String :=
  ["mozilla", "chrome", "safari", "firefox", "edge", "opera"]

/-- `is_browser` (server/main.py:107-117): empty or whitespace-only strings
are not browsers; otherwise a case-insensitive substring match against the
allow-list. -/
def is_browser (user_agent : String) : Bool :=
  if user_agent == "" || pyStrip user_agent == "" then false
  else common_browsers.any (fun browser => strContainsSub (pyLower user_agent) browser)

/-- `not user_agent or not is_browser(user_agent)` (server/main.py:143),
with the absent header as `none`. -/
def is_bot_request : Option String → Bool
  | none => true
  | some s => s == "" || !is_browser s

/-- Request classification as the spec names it. -/
inductive Classification where
  | Browser
  | ProgrammaticClient
deriving DecidableEq

/-- The classification `read_root` acts on. -/
def classify (user_agent : Option String) : Classification :=
  if is_bot_request user_agent then .ProgrammaticClient else .Browser

/-- One entry of the `payments_data` store, as written by the two
confirmation paths.  `category` and `webhook_confirmed` model dict keys that
are present only on some records. -/
structure EntitlementRecord where
  offer_id : String
  timestamp : String
  stripe_session_id : String
  amount : ℚ
  webhook_confirmed : Option Bool
  category : Option String
deriving DecidableEq

/-- The in-memory `payments_data` mapping, token to record. -/
abbrev Store := List (String × EntitlementRecord)

/-- `payments_data.get(token)`. -/
def storeGet (s : Store) (k : String) : Option EntitlementRecord :=
  match s with
  | [] => none
  | (k₀, v) :: rest => if k₀ == k then some v else storeGet rest k

/-- `payments_data[token] = record`: overwrite semantics of dict assignment. -/
def storeSet (s : Store) (k : String) (v : EntitlementRecord) : Store :=
  (k, v) :: s.filter (fun p => p.1 != k)

/-- `validate_token` (server/main.py:120-126): `token in payments_data`;
`None` is never a key. -/
def validate_token (store : Store) : Option String → Bool
  | none => false
  | some t => (storeGet store t).isSome

/-- One generated news item (the mock content source's output shape). -/
structure NewsItem where
  timestamp : String
  title : String
  description : String
  category : String
deriving DecidableEq

/-- The fixed category list (server/main.py:82). -/
def categories : List String :=
  ["politics", "international", "economy", "technology", "sports", "entertainment"]

/-- One entry of the static offer catalog returned with a 402 challenge. -/
structure Offer where
  id : String
  title : String
  description : String
  amount : Nat
  currency : String
  type : Option String
  duration : Option String
  payment_methods : List String
deriving DecidableEq

/-- The static offer catalog (server/main.py:191-210). -/
def offers : List Offer :=
  [ { id := "one_category"
      title := "Access to one category"
      description := "Access to all the data in one category"
      amount := 1
      currency := "USD"
      type := none
      duration := none
      payment_methods := ["stripe"] },
    { id := "all_categories"
      title := "Monthly Subscription"
      description := "Access all the data in our website for a month, any category, any time"
      amount := 5
      currency := "USD"
      type := some "subscription"
      duration := some "1 month"
      payment_methods := ["stripe"] } ]

/-- Body of the 402 challenge response (server/main.py:212-217). -/
structure ChallengeBody where
  version : String
  payment_request_url : String
  payment_context_token : String
  offers : List Offer
deriving DecidableEq

/-- The possible `GET /` responses.  The browser branch carries the news
grouped by the catalog categories — the input handed to the HTML renderer,
which is out of scope. -/
inductive RootResponse where
  | newsOk (news : List NewsItem)
  | paymentRequired (body : ChallengeBody)
  | browserHtml (columns : List (String × List NewsItem))
  | httpError (status : Nat) (detail : String)
deriving DecidableEq

/-- The grouping loop of the browser branch (server/main.py:228-233,
273-274): items bucketed by their category, rendered in catalog order,
empty categories skipped. -/
def news_by_category (news : List NewsItem) : List (String × List NewsItem) :=
  categories.filterMap (fun c =>
    let items := news.filter (fun item => item.category == c)
    if items.isEmpty then none else some (c, items))

/-- A hex digit as `uuid` prints it (lowercase). -/
def hexDigitChar (n : Nat) : Char :=
  if n < 10 then Char.ofNat (48 + n) else Char.ofNat (87 + n)

/-- `n` rendered as exactly `w` hex digits. -/
def natToHexPad : Nat → Nat → List Char
  | 0, _ => []
  | w + 1, n => natToHexPad w (n / 16) ++ [hexDigitChar (n % 16)]

/-- String form of `natToHexPad`. -/
def hexPad (w n : Nat) : String := String.mk (natToHexPad w n)

/-- `str(uuid.uuid4())` (server/main.py:185): 128 random bits rendered as
8-4-4-4-12 lowercase hex groups.  The randomness is abstracted as the
parameter `r`. -/
def uuid4_str (r : Nat) : String :=
  hexPad 8 (r % 2 ^ 32) ++ "-" ++ hexPad 4 (r / 2 ^ 32 % 2 ^ 16) ++ "-" ++
    hexPad 4 (r / 2 ^ 48 % 2 ^ 16) ++ "-" ++ hexPad 4 (r / 2 ^ 64 % 2 ^ 16) ++ "-" ++
    hexPad 12 (r / 2 ^ 80 % 2 ^ 48)

/-- `read_root` (server/main.py:136-312).  `token` is the bearer token the
`get_authorization_header` dependency extracted; `uuid_entropy` is the
randomness `uuid.uuid4()` would consume when a challenge is minted. -/
def read_root (store : Store) (news : List NewsItem) (user_agent : Option String)
    (token : Option String) (uuid_entropy : Nat) : RootResponse × Store :=
  if is_bot_request user_agent then
    if validate_token store token then
      match (match token with | none => none | some t => storeGet store t) with
      | none => (.httpError 500 "Internal Server Error: Invalid token state", store)
      | some payment_details =>
        let offer_id := payment_details.offer_id
        let paid_category := payment_details.category
        if offer_id == "all_categories" then
          (.newsOk news, store)
        else if offer_id == "one_category" && optTruthy paid_category then
          (.newsOk (news.filter (fun item => item.category == paid_category.getD "")), store)
        else
          (.httpError 403 "Access Denied: Invalid or incomplete payment token details", store)
    else
      let payment_context_token := uuid4_str uuid_entropy
      (.paymentRequired
        { version := "0.2.3"
          payment_request_url := "http://localhost:8000/l402/payment-request"
          payment_context_token := payment_context_token
          offers := offers }, store)
  else
    (.browserHtml (news_by_category news), store)

/-- State of the durable `payments_db.json` file: absent, present but
unreadable (`json.load` raising `JSONDecodeError`/`IOError`), or a readable
snapshot. -/
inductive DurableFile where
  | absent
  | unreadable
  | valid (data : Store)
deriving DecidableEq

/-- `save_payments_db` (server/main.py:70-76): full-snapshot rewrite of the
durable file. -/
def save_payments_db (data : Store) : DurableFile :=
  .valid data

/-- `load_payments_db` (server/main.py:52-68), as a function of the durable
file's state, returning the in-memory store and the file afterwards.  An
absent file yields an empty store and `save_payments_db({})`; an unreadable
file is caught by the `except` branch, which yields an empty store and
leaves the file as it was. -/
def load_payments_db : DurableFile → Store × DurableFile
  | .absent => ([], save_payments_db [])
  | .unreadable => ([], .unreadable)
  | .valid data => (data, .valid data)

/-- The `PaymentRequest` body model (server/main.py:42-45). -/
structure PaymentRequest where
  payment_context_token : String
  offer_id : String
  category : Option String
deriving DecidableEq

/-- The arguments `process_payment_request` hands to
`stripe.checkout.Session.create` (server/main.py:337-359), flattened. -/
structure SessionCreateParams where
  currency : String
  name : String
  description : String
  unit_amount : Nat
  quantity : Nat
  mode : String
  success_url : String
  cancel_url : String
  metadata_payment_context_token : String
  metadata_offer_id : String
  metadata_category : String
  metadata_amount : Nat
deriving DecidableEq

/-- Outcome of the external `stripe.checkout.Session.create` call. -/
inductive CreateSessionResult where
  | ok (session_id : String) (url : String)
  | stripeError (msg : String)
  | otherError (msg : String)
deriving DecidableEq

/-- Responses of `POST /l402/payment-request`. -/
inductive PaymentRequestResponse where
  | ok (message : String) (checkout_url : String) (session_id : String)
  | httpError (status : Nat) (detail : String)
deriving DecidableEq

/-- The checkout-session argument block built at server/main.py:337-359 for
a given amount and description. -/
def checkout_session_params (payment_request : PaymentRequest)
    (amount_value : Nat) (description : String) : SessionCreateParams :=
  { currency := "usd"
    name := description
    description := description
    unit_amount := amount_value
    quantity := 1
    mode := "payment"
    success_url :=
      "http://localhost:8000/payment/success?session_id=\x7bCHECKOUT_SESSION_ID\x7d&context_token="
        ++ payment_request.payment_context_token ++ "&offer_id="
        ++ payment_request.offer_id ++ "&category="
        ++ payment_request.category.getD ""
    cancel_url := "http://localhost:8000/payment/cancel"
    metadata_payment_context_token := payment_request.payment_context_token
    metadata_offer_id := payment_request.offer_id
    metadata_category := payment_request.category.getD ""
    metadata_amount := amount_value }

/-- The `try`/`except` tail of `process_payment_request`
(server/main.py:335-375): translate the processor's outcome into the
endpoint response.  The store is never touched. -/
def handle_create (store : Store) : CreateSessionResult → PaymentRequestResponse × Store
  | .ok session_id url => (.ok "Checkout session created" url session_id, store)
  | .stripeError m => (.httpError 400 ("Payment processing failed: " ++ m), store)
  | .otherError _ => (.httpError 500 "Internal server error during payment processing", store)

/-- `process_payment_request` (server/main.py:320-375).  `create` is the
external processor; the invalid-offer `HTTPException` is raised before the
`try` block, so it reaches the client as a 400 without any processor call. -/
def process_payment_request (store : Store) (payment_request : PaymentRequest)
    (create : SessionCreateParams → CreateSessionResult) :
    PaymentRequestResponse × Store :=
  if payment_request.offer_id == "one_category" then
    handle_create store (create (checkout_session_params payment_request 100
      (if optTruthy payment_request.category then
        "Access to " ++ payment_request.category.getD "" ++ " category"
      else "Access to one category")))
  else if payment_request.offer_id == "all_categories" then
    handle_create store (create (checkout_session_params payment_request 500
      "Access to all categories for one month"))
  else
    (.httpError 400 ("Invalid offer_id: " ++ payment_request.offer_id), store)

/-- The checkout session `stripe.checkout.Session.retrieve` returns, in the
fields `payment_success` reads. -/
structure CheckoutSession where
  id : String
  payment_status : String
  amount_total : Nat
deriving DecidableEq

/-- Outcome of the external `stripe.checkout.Session.retrieve` call. -/
inductive RetrieveResult where
  | ok (session : CheckoutSession)
  | stripeError (msg : String)
  | otherError (msg : String)
deriving DecidableEq

/-- Responses of `GET /payment/success`. -/
inductive SuccessResponse where
  | successHtml (bearer_token : String)
  | httpError (status : Nat) (detail : String)
deriving DecidableEq

/-- `payment_success` (server/main.py:377-439).  `retrieve` is the
processor's answer for `session_id`; `now` is the clock.  When the session
is not paid, the `HTTPException(400, "Payment not completed")` raised inside
the `try` block is itself an `Exception`, so the blanket
`except Exception` handler at server/main.py:437 catches it and replaces it
with a 500 "Internal server error" — the embedded else-branch reflects the
behaviour, not the raised 400. -/
def payment_success (store : Store) (retrieve : RetrieveResult)
    (session_id context_token offer_id : String) (category : String)
    (now : String) : SuccessResponse × Store :=
  match retrieve with
  | .stripeError m => (.httpError 400 ("Error verifying payment: " ++ m), store)
  | .otherError _ => (.httpError 500 "Internal server error", store)
  | .ok checkout_session =>
    if checkout_session.payment_status == "paid" then
      let base : EntitlementRecord :=
        { offer_id := offer_id
          timestamp := now
          stripe_session_id := session_id
          amount := (checkout_session.amount_total : ℚ) / 100
          webhook_confirmed := none
          category := none }
      let payment_details :=
        if category != "" then { base with category := some category } else base
      (.successHtml context_token, storeSet store context_token payment_details)
    else
      (.httpError 500 "Internal server error", store)

/-- The `event['data']['object']` session of a webhook event, in the fields
`stripe_webhook` reads; the metadata entries may be absent. -/
structure WebhookSession where
  id : String
  amount_total : Nat
  metadata_payment_context_token : Option String
  metadata_offer_id : Option String
  metadata_category : Option String
deriving DecidableEq

/-- A webhook event that passed signature handling. -/
structure WebhookEvent where
  type : String
  session : WebhookSession
deriving DecidableEq

/-- The webhook endpoint's JSON body. -/
structure WebhookResponse where
  status : String
deriving DecidableEq

/-- `stripe_webhook` (server/main.py:463-509), after payload parsing and
signature verification.  `now` is the clock. -/
def stripe_webhook (store : Store) (event : WebhookEvent) (now : String) :
    WebhookResponse × Store :=
  if event.type == "checkout.session.completed" then
    let session := event.session
    let context_token := session.metadata_payment_context_token
    let offer_id := session.metadata_offer_id
    let category := session.metadata_category.getD ""
    if optTruthy context_token && optTruthy offer_id then
      let base : EntitlementRecord :=
        { offer_id := offer_id.getD ""
          timestamp := now
          stripe_session_id := session.id
          amount := (session.amount_total : ℚ) / 100
          webhook_confirmed := some true
          category := none }
      let payment_details :=
        if category != "" then { base with category := some category } else base
      ({ status := "success" }, storeSet store (context_token.getD "") payment_details)
    else
      ({ status := "success" }, store)
  else
    ({ status := "success" }, store)

/-- How the parsed webhook payload is represented (server/main.py:468-479):
with no signing secret configured — the default, `STRIPE_WEBHOOK_SECRET`
falling back to `""` at server/main.py:29 — `json.loads(payload)` yields a
plain dict; with a secret configured and a valid signature,
`stripe.Webhook.construct_event` yields a Stripe event object. -/
inductive PayloadRepr where
  | stripeObject
  | plainDict
deriving DecidableEq

/-- Endpoint-level webhook result: the JSON body, or the HTTP 500 FastAPI
produces for an exception no handler catches. -/
inductive WebhookResult where
  | ok (body : WebhookResponse)
  | serverError
deriving DecidableEq

/-- The whole `POST /webhook` handler on an event that passed signature
handling (server/main.py:463-509).  On a Stripe event object the handler
body is `stripe_webhook`.  On a plain dict, a `checkout.session.completed`
event reaches `session.id` at server/main.py:484 — attribute access that a
dict does not support — so an `AttributeError` escapes the handler before
the metadata check and FastAPI answers 500; an event of any other type
never touches the session and still answers success. -/
def stripe_webhook_endpoint (store : Store) (payload_repr : PayloadRepr)
    (event : WebhookEvent) (now : String) : WebhookResult × Store :=
  match payload_repr with
  | .stripeObject =>
    let r := stripe_webhook store event now
    (.ok r.1, r.2)
  | .plainDict =>
    if event.type == "checkout.session.completed" then
      (.serverError, store)
    else
      (.ok { status := "success" }, store)

/-! ## Concrete fixtures used by witness theorems -/

/-- A technology-tagged news item. -/
def newsTech : NewsItem :=
  { timestamp := "2024-01-02T10:00:00", title := "Tech headline"
    description := "tech body", category := "technology" }

/-- A sports-tagged news item. -/
def newsSports : NewsItem :=
  { timestamp := "2024-01-03T10:00:00", title := "Sports headline"
    description := "sports body", category := "sports" }

/-- A `one_category` entitlement for `sports`. -/
def recSports : EntitlementRecord :=
  { offer_id := "one_category", timestamp := "2024-01-01T00:00:00"
    stripe_session_id := "cs_s", amount := 1
    webhook_confirmed := none, category := some "sports" }

/-! ## Store lemmas -/

/-- Writing then reading the same token returns the written record. -/
theorem storeGet_storeSet (s : Store) (k : String) (v : EntitlementRecord) :
    storeGet (storeSet s k v) k = some v := by
  simp [storeGet, storeSet]

/-- Overwriting a token twice leaves exactly the second record: dict
assignment is absorptive. -/
theorem storeSet_storeSet (s : Store) (k : String) (v₁ v₂ : EntitlementRecord) :
    storeSet (storeSet s k v₁) k v₂ = storeSet s k v₂ := by
  simp only [storeSet, List.filter_cons, bne_self_eq_false, Bool.false_eq_true,
    if_false, List.filter_filter, Bool.and_self]

/-! ## uuid lemmas -/

/-- `natToHexPad` renders exactly `w` digits. -/
theorem natToHexPad_length (w : Nat) : ∀ n, (natToHexPad w n).length = w := by
  induction w with
  | zero => intro n; rfl
  | succ w ih => intro n; simp [natToHexPad, ih]

/-- `hexPad` renders exactly `w` characters. -/
theorem hexPad_length (w n : Nat) : (hexPad w n).length = w := by
  simp [hexPad, String.length, natToHexPad_length]

/-- A rendered uuid always has 36 characters. -/
theorem uuid4_str_length (r : Nat) : (uuid4_str r).length = 36 := by
  have hdash : ("-" : String).length = 1 := rfl
  simp [uuid4_str, String.length_append, hexPad_length, hdash]

/-- A rendered uuid is never the empty string. -/
theorem uuid4_str_ne_empty (r : Nat) : uuid4_str r ≠ "" := by
  intro h
  have h36 := uuid4_str_length r
  rw [h] at h36
  simp [String.length] at h36

/-! ## Claim theorems -/

/-- C1: for every programmatic `GET /` presenting a bearer token that is a
key of the Entitlement Store, a record with `offer_id = "all_categories"`
yields 200 with every news item; a record with `offer_id = "one_category"`
and a (non-empty) category yields 200 with exactly the news items of that
category; any other record yields a 403. -/
theorem read_root_entitled_decision (store : Store) (news : List NewsItem)
    (ua : Option String) (t : String) (r : EntitlementRecord) (e : Nat)
    (hbot : is_bot_request ua = true)
    (hget : storeGet store t = some r) :
    (r.offer_id = "all_categories" →
      read_root store news ua (some t) e = (.newsOk news, store))
    ∧ (∀ c, r.offer_id = "one_category" → r.category = some c → c ≠ "" →
      read_root store news ua (some t) e
        = (.newsOk (news.filter (fun item => item.category == c)), store))
    ∧ ((r.offer_id ≠ "all_categories"
        ∧ ¬(r.offer_id = "one_category" ∧ optTruthy r.category = true)) →
      read_root store news ua (some t) e
        = (.httpError 403 "Access Denied: Invalid or incomplete payment token details",
           store)) := by
  have hval : validate_token store (some t) = true := by
    simp [validate_token, hget]
  refine ⟨?_, ?_, ?_⟩
  · intro hall
    simp [read_root, hbot, hval, hget, hall]
  · intro c hone hcat hne
    simp [read_root, hbot, hval, hget, hone, hcat, optTruthy, hne]
  · rintro ⟨hnall, hnone⟩
    by_cases hone : r.offer_id = "one_category"
    · have htruthy : optTruthy r.category = false := by
        rcases Bool.eq_false_or_eq_true (optTruthy r.category) with h | h
        · exact absurd ⟨hone, h⟩ hnone
        · exact h
      simp [read_root, hbot, hval, hget, hnall, hone, htruthy]
    · simp [read_root, hbot, hval, hget, hnall, hone]

/-- C1 witness: a stored `one_category`/`sports` entitlement filters the
feed down to the sports item. -/
theorem read_root_entitled_decision_witness :
    read_root [("t1", recSports)] [newsTech, newsSports] none (some "t1") 0
      = (.newsOk [newsSports], [("t1", recSports)]) :=
  (read_root_entitled_decision [("t1", recSports)] [newsTech, newsSports]
      none "t1" recSports 0 (by decide) (by decide)).2.1
    "sports" rfl rfl (by decide)

/-- C2: processing the same webhook event twice (same session and metadata,
arbitrary clock readings) leaves exactly the store that processing it once
leaves, and the second call still answers `{status: "success"}` — the
entitlement write is an absorptive overwrite, so no duplication and no
error. -/
theorem stripe_webhook_idempotent (store : Store) (event : WebhookEvent)
    (t₁ t₂ : String) :
    stripe_webhook (stripe_webhook store event t₁).2 event t₂
        = stripe_webhook store event t₂
    ∧ (stripe_webhook (stripe_webhook store event t₁).2 event t₂).1
        = { status := "success" } := by
  have hresp : ∀ (s : Store) (t : String),
      (stripe_webhook s event t).1 = { status := "success" } := by
    intro s t
    unfold stripe_webhook
    by_cases hA : (event.type == "checkout.session.completed") = true
    · by_cases hB : (optTruthy event.session.metadata_payment_context_token
          && optTruthy event.session.metadata_offer_id) = true
      · simp [hA, hB]
      · simp [hA, hB]
    · simp [hA]
  refine ⟨?_, hresp _ _⟩
  unfold stripe_webhook
  by_cases hA : (event.type == "checkout.session.completed") = true
  · by_cases hB : (optTruthy event.session.metadata_payment_context_token
        && optTruthy event.session.metadata_offer_id) = true
    · simp [hA, hB, storeSet_storeSet]
    · simp [hA, hB]
  · simp [hA]

/-- C3 counterexample: at an unreadable (corrupt) durable file, startup does
not produce an empty durable snapshot — the `except` branch only clears the
in-memory store and leaves the file as it was. -/
theorem load_payments_db_unreadable_no_snapshot :
    load_payments_db DurableFile.unreadable ≠ ([], save_payments_db []) := by
  decide

/-- C3 amended: when the durable file is absent, startup initializes the
in-memory store empty and immediately writes an empty durable snapshot;
when the file is present but unreadable, startup initializes empty without
writing a snapshot; a readable snapshot is loaded as-is.  In every case
`load_payments_db` is total — startup does not crash. -/
theorem load_payments_db_spec :
    load_payments_db DurableFile.absent = ([], save_payments_db [])
    ∧ load_payments_db DurableFile.unreadable = ([], DurableFile.unreadable)
    ∧ ∀ d, load_payments_db (DurableFile.valid d) = (d, DurableFile.valid d) :=
  ⟨rfl, rfl, fun _ => rfl⟩

/-- C4 counterexample: the webhook confirmation, given
`offer_id = "all_categories"` together with a non-empty category in the
metadata, writes a record whose offer kind is `all_categories` and whose
category field is nevertheless present — the category field tracks only
whether a non-empty category string was supplied, not the offer kind. -/
theorem webhook_all_categories_keeps_category :
    ((storeGet (stripe_webhook []
        { type := "checkout.session.completed"
          session := { id := "cs_1", amount_total := 500
                       metadata_payment_context_token := some "tok1"
                       metadata_offer_id := some "all_categories"
                       metadata_category := some "sports" } }
        "2024-01-01T00:00:00").2 "tok1").map EntitlementRecord.offer_id
      = some "all_categories")
    ∧ ((storeGet (stripe_webhook []
        { type := "checkout.session.completed"
          session := { id := "cs_1", amount_total := 500
                       metadata_payment_context_token := some "tok1"
                       metadata_offer_id := some "all_categories"
                       metadata_category := some "sports" } }
        "2024-01-01T00:00:00").2 "tok1").map EntitlementRecord.category
      = some (some "sports")) := by
  constructor <;> decide

/-- C4 amended: an entitlement record written by either confirmation path
(success redirect or webhook) carries a category field iff the supplied
category string is non-empty; neither path consults the offer kind when
deciding whether to attach the category. -/
theorem confirmation_category_iff_supplied :
    (∀ (store : Store) (cs : CheckoutSession) (sid tok offer cat now : String),
      cs.payment_status = "paid" →
      ∃ r, storeGet (payment_success store (.ok cs) sid tok offer cat now).2 tok
             = some r
        ∧ r.offer_id = offer
        ∧ r.category = (if cat != "" then some cat else none))
    ∧ (∀ (store : Store) (event : WebhookEvent) (now : String),
      event.type = "checkout.session.completed" →
      optTruthy event.session.metadata_payment_context_token = true →
      optTruthy event.session.metadata_offer_id = true →
      ∃ r, storeGet (stripe_webhook store event now).2
             (event.session.metadata_payment_context_token.getD "") = some r
        ∧ r.offer_id = event.session.metadata_offer_id.getD ""
        ∧ r.category = (if (event.session.metadata_category.getD "") != "" then
            some (event.session.metadata_category.getD "") else none)) := by
  constructor
  · intro store cs sid tok offer cat now hpaid
    have hps : (payment_success store (.ok cs) sid tok offer cat now).2
        = storeSet store tok (if cat != "" then
            { offer_id := offer, timestamp := now, stripe_session_id := sid
              amount := (cs.amount_total : ℚ) / 100, webhook_confirmed := none
              category := some cat }
          else
            { offer_id := offer, timestamp := now, stripe_session_id := sid
              amount := (cs.amount_total : ℚ) / 100, webhook_confirmed := none
              category := none }) := by
      simp [payment_success, hpaid]
    refine ⟨_, by rw [hps]; exact storeGet_storeSet _ _ _, ?_, ?_⟩
    · by_cases hc : (cat != "") = true <;> simp [hc]
    · by_cases hc : (cat != "") = true <;> simp [hc]
  · intro store event now htype hctx hoffer
    have hws : (stripe_webhook store event now).2
        = storeSet store (event.session.metadata_payment_context_token.getD "")
            (if event.session.metadata_category.getD "" != "" then
              { offer_id := event.session.metadata_offer_id.getD "", timestamp := now
                stripe_session_id := event.session.id
                amount := (event.session.amount_total : ℚ) / 100
                webhook_confirmed := some true
                category := some (event.session.metadata_category.getD "") }
            else
              { offer_id := event.session.metadata_offer_id.getD "", timestamp := now
                stripe_session_id := event.session.id
                amount := (event.session.amount_total : ℚ) / 100
                webhook_confirmed := some true, category := none }) := by
      simp [stripe_webhook, htype, hctx, hoffer]
    refine ⟨_, by rw [hws]; exact storeGet_storeSet _ _ _, ?_, ?_⟩
    · by_cases hc : (event.session.metadata_category.getD "" != "") = true <;> simp [hc]
    · by_cases hc : (event.session.metadata_category.getD "" != "") = true <;> simp [hc]

/-- C4 witness: a paid `one_category` success callback with category
`sports` writes a record for its context token whose category is present. -/
theorem confirmation_category_iff_supplied_witness :
    ∃ r, storeGet (payment_success []
          (RetrieveResult.ok { id := "cs_2", payment_status := "paid", amount_total := 100 })
          "cs_2" "t1" "one_category" "sports" "2024-01-01").2 "t1" = some r
      ∧ r.offer_id = "one_category"
      ∧ r.category = (if "sports" != "" then some "sports" else none) :=
  confirmation_category_iff_supplied.1 []
    { id := "cs_2", payment_status := "paid", amount_total := 100 }
    "cs_2" "t1" "one_category" "sports" "2024-01-01" rfl

/-- C5: classification is a pure total function; absent or blank user-agent
strings classify as `ProgrammaticClient`; otherwise a lowercased string
containing any allow-list token classifies as `Browser`, and one containing
none classifies as `ProgrammaticClient`. -/
theorem classify_spec (ua : Option String) :
    ((ua = none ∨ (∃ s, ua = some s ∧ pyStrip s = "")) →
      classify ua = Classification.ProgrammaticClient)
    ∧ (∀ s, ua = some s → pyStrip s ≠ "" →
      (∃ b ∈ common_browsers, strContainsSub (pyLower s) b = true) →
      classify ua = Classification.Browser)
    ∧ (∀ s, ua = some s →
      (∀ b ∈ common_browsers, strContainsSub (pyLower s) b = false) →
      classify ua = Classification.ProgrammaticClient) := by
  refine ⟨?_, ?_, ?_⟩
  · rintro (h | ⟨s, h, hblank⟩)
    · simp [h, classify, is_bot_request]
    · have hbrowser : is_browser s = false := by
        simp [is_browser, hblank]
      simp [h, classify, is_bot_request, hbrowser]
  · intro s h hblank ⟨b, hb, hsub⟩
    have hs : s ≠ "" := by
      intro h0
      exact hblank (by simp [h0, pyStrip])
    have hbrowser : is_browser s = true := by
      simp only [is_browser]
      rw [if_neg]
      · exact List.any_eq_true.mpr ⟨b, hb, hsub⟩
      · simp [hs, hblank]
    simp [h, classify, is_bot_request, hbrowser, hs]
  · intro s h hnone
    have hbrowser : is_browser s = false := by
      simp only [is_browser]
      by_cases hblank : (s == "" || pyStrip s == "") = true
      · simp [hblank]
      · rw [if_neg (by simpa using hblank)]
        exact List.any_eq_false.mpr (fun b hb => by simp [hnone b hb])
    simp [h, classify, is_bot_request, hbrowser]

/-- C5 witness: a Mozilla user-agent classifies as a browser. -/
theorem classify_spec_witness :
    classify (some "Mozilla/5.0") = Classification.Browser :=
  (classify_spec (some "Mozilla/5.0")).2.1 "Mozilla/5.0" rfl (by decide)
    ⟨"mozilla", by decide, by decide⟩

/-- C6: a programmatic `GET /` whose presented token is absent or not a key
of the Entitlement Store answers 402 with the static two-offer catalog (ids
`one_category` and `all_categories`), the payment-request URL, and the
freshly minted, provably non-empty context token. -/
theorem read_root_challenge_spec (store : Store) (news : List NewsItem)
    (ua : Option String) (token : Option String) (e : Nat)
    (hbot : is_bot_request ua = true)
    (hval : validate_token store token = false) :
    read_root store news ua token e
      = (.paymentRequired
          { version := "0.2.3"
            payment_request_url := "http://localhost:8000/l402/payment-request"
            payment_context_token := uuid4_str e
            offers := offers }, store)
    ∧ offers.map Offer.id = ["one_category", "all_categories"]
    ∧ uuid4_str e ≠ "" := by
  refine ⟨?_, by decide, uuid4_str_ne_empty e⟩
  simp [read_root, hbot, hval]

/-- C6 witness: with an empty user-agent, no token and an empty store, the
challenge with both offers and the fresh token is returned. -/
theorem read_root_challenge_spec_witness :
    read_root [] [] (some "") none 0
      = (.paymentRequired
          { version := "0.2.3"
            payment_request_url := "http://localhost:8000/l402/payment-request"
            payment_context_token := uuid4_str 0
            offers := offers }, [])
    ∧ offers.map Offer.id = ["one_category", "all_categories"]
    ∧ uuid4_str 0 ≠ "" :=
  read_root_challenge_spec [] [] (some "") none 0 rfl rfl

/-- C7 (code bug): at a session the processor reports as not paid, the
success callback answers 500 "Internal server error" and leaves the store
unchanged — not the 400 "Payment not completed" the spec states.  The
`HTTPException(400, "Payment not completed")` is raised inside the `try`
block and, being an `Exception`, is caught by the handler's own blanket
`except Exception`, which replaces it with the 500. -/
theorem payment_success_unpaid_500 :
    payment_success []
        (RetrieveResult.ok { id := "cs_3", payment_status := "unpaid", amount_total := 100 })
        "cs_3" "t2" "one_category" "" "2024-01-01"
      = (SuccessResponse.httpError 500 "Internal server error", []) := rfl

/-- C8: a payment request with an offer id outside the catalog is rejected
with a 400 whose outcome is the same for every processor behaviour (the
processor is never consulted); a `one_category` request reaches the
processor with unit amount 100 and an `all_categories` request with unit
amount 500; the endpoint never mutates the store. -/
theorem process_payment_request_spec (store : Store) (req : PaymentRequest)
    (create : SessionCreateParams → CreateSessionResult) :
    ((req.offer_id ≠ "one_category" ∧ req.offer_id ≠ "all_categories") →
      process_payment_request store req create
        = (.httpError 400 ("Invalid offer_id: " ++ req.offer_id), store))
    ∧ (req.offer_id = "one_category" →
      ∃ d, process_payment_request store req create
          = handle_create store (create (checkout_session_params req 100 d)))
    ∧ (req.offer_id = "all_categories" →
      process_payment_request store req create
        = handle_create store (create (checkout_session_params req 500
            "Access to all categories for one month")))
    ∧ (∀ a d, (checkout_session_params req a d).unit_amount = a
        ∧ (checkout_session_params req a d).metadata_amount = a)
    ∧ (process_payment_request store req create).2 = store := by
  refine ⟨?_, ?_, ?_, fun a d => ⟨rfl, rfl⟩, ?_⟩
  · rintro ⟨h1, h2⟩
    simp [process_payment_request, h1, h2]
  · intro h1
    refine ⟨if optTruthy req.category then
        "Access to " ++ req.category.getD "" ++ " category"
      else "Access to one category", ?_⟩
    simp [process_payment_request, h1]
  · intro h2
    by_cases h1 : req.offer_id = "one_category"
    · rw [h1] at h2; exact absurd h2 (by decide)
    · simp [process_payment_request, h1, h2]
  · by_cases h1 : req.offer_id = "one_category"
    · simp only [process_payment_request, h1, beq_self_eq_true, if_true]
      cases create (checkout_session_params req 100
        (if optTruthy req.category then
          "Access to " ++ req.category.getD "" ++ " category"
        else "Access to one category")) <;> rfl
    · by_cases h2 : req.offer_id = "all_categories"
      · simp only [process_payment_request, h1, h2, beq_self_eq_true, if_true]
        rw [if_neg (by simp [h1])]
        cases create (checkout_session_params req 500
          "Access to all categories for one month") <;> rfl
      · simp [process_payment_request, h1, h2]

/-- C8 witness: an unknown offer id is rejected with a 400 and the store is
untouched, for a processor that would otherwise succeed. -/
theorem process_payment_request_spec_witness :
    process_payment_request []
        { payment_context_token := "t", offer_id := "bogus", category := none }
        (fun _ => CreateSessionResult.ok "sess" "url")
      = (.httpError 400 ("Invalid offer_id: " ++ "bogus"), []) :=
  (process_payment_request_spec []
    { payment_context_token := "t", offer_id := "bogus", category := none }
    (fun _ => CreateSessionResult.ok "sess" "url")).1 (by decide)

/-- C9: `GET /` never writes the Entitlement Store — every branch of
`read_root`, including challenge minting, returns the store unchanged. -/
theorem read_root_preserves_store (store : Store) (news : List NewsItem)
    (ua : Option String) (token : Option String) (e : Nat) :
    (read_root store news ua token e).2 = store := by
  unfold read_root
  by_cases hbot : is_bot_request ua = true
  · by_cases hval : validate_token store token = true
    · simp only [hbot, hval, if_true]
      cases htok : (match token with | none => none | some t => storeGet store t) with
      | none => rfl
      | some pd =>
        by_cases hall : (pd.offer_id == "all_categories") = true
        · simp [htok, hall]
        · by_cases hone : (pd.offer_id == "one_category" && optTruthy pd.category) = true
          · simp [htok, hall, hone]
          · simp [htok, hall, hone]
    · simp [hbot, hval]
  · simp [hbot]

/-- C10 counterexample: in the default no-secret configuration the parsed
payload is a plain dict, so a `checkout.session.completed` event whose
metadata lacks both the context token and the offer id escapes with an
unhandled `AttributeError` at the `session.id` access — HTTP 500, not
`{status: "success"}` — while the store is still unchanged. -/
theorem webhook_plain_dict_completed_crashes :
    stripe_webhook_endpoint [] PayloadRepr.plainDict
        { type := "checkout.session.completed"
          session := { id := "cs_5", amount_total := 100
                       metadata_payment_context_token := none
                       metadata_offer_id := none
                       metadata_category := none } }
        "2024-01-01"
      = (WebhookResult.serverError, [])
    ∧ stripe_webhook_endpoint [] PayloadRepr.plainDict
        { type := "checkout.session.completed"
          session := { id := "cs_5", amount_total := 100
                       metadata_payment_context_token := none
                       metadata_offer_id := none
                       metadata_category := none } }
        "2024-01-01"
      ≠ (WebhookResult.ok { status := "success" }, []) := by
  constructor <;> decide

/-- C10 amended: for every webhook event that passed signature handling, an
event whose type is not `checkout.session.completed` answers
`{status: "success"}` with the store unchanged in both payload
representations; a completed event whose metadata lacks the context token
or the offer id answers `{status: "success"}` with the store unchanged on a
verified Stripe event object, while in the default no-secret (plain-dict)
configuration every completed event escapes with an unhandled
`AttributeError` (HTTP 500) — the store unchanged in every case. -/
theorem stripe_webhook_skip_or_crash_spec (store : Store) (event : WebhookEvent)
    (now : String) :
    (∀ p, event.type ≠ "checkout.session.completed" →
      stripe_webhook_endpoint store p event now
        = (.ok { status := "success" }, store))
    ∧ ((event.session.metadata_payment_context_token = none
        ∨ event.session.metadata_offer_id = none) →
      stripe_webhook_endpoint store .stripeObject event now
        = (.ok { status := "success" }, store))
    ∧ (event.type = "checkout.session.completed" →
      stripe_webhook_endpoint store .plainDict event now
        = (.serverError, store)) := by
  refine ⟨?_, ?_, ?_⟩
  · intro p h
    cases p
    · have hw : stripe_webhook store event now = ({ status := "success" }, store) := by
        unfold stripe_webhook
        simp [h]
      simp [stripe_webhook_endpoint, hw]
    · simp [stripe_webhook_endpoint, h]
  · intro h
    have hw : stripe_webhook store event now = ({ status := "success" }, store) := by
      unfold stripe_webhook
      rcases h with h | h
      · by_cases ht : (event.type == "checkout.session.completed") = true <;>
          simp [ht, h, optTruthy]
      · by_cases ht : (event.type == "checkout.session.completed") = true <;>
          simp [ht, h, optTruthy]
    simp [stripe_webhook_endpoint, hw]
  · intro h
    simp [stripe_webhook_endpoint, h]

/-- C10 witness: on a verified Stripe event object, a completed event whose
metadata lacks the context token is acknowledged with success and no store
change. -/
theorem stripe_webhook_skip_or_crash_spec_witness :
    stripe_webhook_endpoint [] PayloadRepr.stripeObject
        { type := "checkout.session.completed"
          session := { id := "cs_6", amount_total := 100
                       metadata_payment_context_token := none
                       metadata_offer_id := some "one_category"
                       metadata_category := none } }
        "2024-01-01"
      = (.ok { status := "success" }, []) :=
  (stripe_webhook_skip_or_crash_spec []
    { type := "checkout.session.completed"
      session := { id := "cs_6", amount_total := 100
                   metadata_payment_context_token := none
                   metadata_offer_id := some "one_category"
                   metadata_category := none } }
    "2024-01-01").2.1 (Or.inl rfl)

end NewsPay
